import Mathlib

/-!
Shallow embedding of `mu/modes/python3.py` (the Python 3 mode of the Mu
editor): the `KernelRunner` kernel-lifecycle controller and the
`PythonMode` controller with its script-run and REPL operations.

Stateful Python methods become Lean functions `State → State × List Effect`:
the state records the mutable attributes the code reads and writes
(`self.runner`, `self.kernel_runner`, the current tab of the view, the button
bar, the runner/REPL surfaces, the signal connections made by `add_repl`),
and the effect list records, in order, the calls made to external
collaborators (logging, `editor.save()`, `write_and_flush`, process spawn
and waits, signal emissions, status messages).
-/

namespace Mu

/-- One call to an external collaborator, recorded in program order. -/
inductive Effect where
  | logDebug (msg : String)
  | logInfo (msg : String)
  | editorSave
  | writeAndFlush (path : String) (text : String)
  | tabSetModified (b : Bool)
  | spawn (path : String) (cwd : String) (interactive : Bool)
  | waitForStarted
  | kill
  | waitForFinished
  | removePythonRunner
  | viewRemoveRepl
  | addJupyterRepl
  | emitStopKernel
  | startThread
  | statusMessage (msg : String)
  | stopChannels
  | shutdownKernel (now : Bool)
  | emitKernelFinished
  | chdir (cwd : String)
  | startKernelManager
  | emitKernelStarted
deriving DecidableEq, Repr

/-- The five signal/slot connections wired up by `add_repl`. -/
inductive Conn where
  | startedToOnKernelStart
  | finishedToThreadQuit
  | stopKernelToRunnerStopKernel
  | threadStartedToStartKernel
  | threadFinishedToOnKernelStop
deriving DecidableEq, Repr

/-- An editor tab: `tab.path`, `tab.isModified()`, `tab.text()`. -/
structure Tab where
  path : Option String
  modified : Bool
  text : String
deriving DecidableEq, Repr

/-- The button bar slots of the mode: icon/text/tooltip of the run button and
the enabled state of the debug, modes and repl buttons. `hasRepl` models
whether `repl in self.view.button_bar.slots`. -/
structure ButtonBar where
  runIcon : String
  runText : String
  runToolTip : String
  debugEnabled : Bool
  modesEnabled : Bool
  replEnabled : Bool
  hasRepl : Bool
deriving DecidableEq, Repr

/-- The view: current tab, button bar, and whether the python-runner and
jupyter-REPL surfaces are shown. -/
structure ViewState where
  currentTab : Option Tab
  buttonBar : ButtonBar
  runnerPane : Bool
  replPane : Bool
deriving DecidableEq, Repr

/-- Mutable state of a `PythonMode` instance: `self.runner`,
`self.kernel_runner` (holding the cwd the `KernelRunner` was built with),
`self.repl_kernel_manager` as set by `on_kernel_stop`, the connections made
in `add_repl`, a count of started worker threads, the workspace directory,
and the view. -/
structure ModeState where
  runner : Option Unit
  kernelRunner : Option String
  replKernelManager : Option Unit
  connections : List Conn
  threadsSpawned : Nat
  workspaceDir : String
  view : ViewState
deriving DecidableEq, Repr

/-- Environment for one `run_script` call: the state of the current tab
after `self.editor.save()` returns (only consulted when the tab path was
`None`, which is when the code calls `editor.save()`). -/
structure RunEnv where
  savedTab : Tab
deriving DecidableEq, Repr

/-- Python truthiness of `tab.path`: `None` and `""` are falsy. -/
def truthy : Option String → Bool
  | none => false
  | some p => if p = "" then false else true

/-- Model of `PythonMode.stop_script`: if `self.runner` holds a process, kill it and
wait for it to finish, then clear the handle; in every case ask the view to
remove the python runner surface. -/
def stop_script (s : ModeState) : ModeState × List Effect :=
  let r :=
    match s.runner with
    | some _ =>
        ({ s with runner := none }, [Effect.kill, Effect.waitForFinished])
    | none => (s, ([] : List Effect))
  ({ r.1 with view := { r.1.view with runnerPane := false } },
   Effect.logDebug "Stopping script." :: r.2 ++ [Effect.removePythonRunner])

/-- Model of `PythonMode.run_script`: abort (via `stop_script`) when there is no
current tab; call `editor.save()` when the tab path is `None`; when the
(possibly updated) path is truthy, write a modified tab to disk with
`write_and_flush` and mark it unmodified, then spawn the interactive
runner and wait for it to start. -/
def run_script (env : RunEnv) (s : ModeState) : ModeState × List Effect :=
  match s.view.currentTab with
  | none =>
      let r := stop_script s
      (r.1, Effect.logDebug "There is no active text editor." :: r.2)
  | some tab₀ =>
      let tab₁ := if tab₀.path = none then env.savedTab else tab₀
      let saveEff : List Effect :=
        if tab₀.path = none then [Effect.editorSave] else []
      let s₁ := { s with view := { s.view with currentTab := some tab₁ } }
      match tab₁.path with
      | some p =>
          if p = "" then (s₁, saveEff)
          else
            let tab₂ :=
              if tab₁.modified then { tab₁ with modified := false } else tab₁
            let writeEff : List Effect :=
              if tab₁.modified then
                [Effect.logInfo ("Saving script to: " ++ p),
                 Effect.logDebug tab₁.text,
                 Effect.writeAndFlush p tab₁.text,
                 Effect.tabSetModified false]
              else []
            let s₂ := { s₁ with
              runner := some (),
              view := { s₁.view with
                currentTab := some tab₂, runnerPane := true } }
            (s₂, saveEff ++ writeEff ++
              [Effect.logDebug tab₂.text,
               Effect.spawn p s.workspaceDir true,
               Effect.waitForStarted])
      | none => (s₁, saveEff)

/-- Model of `PythonMode.run_toggle`: with a runner present, stop the script and
restore the Run button and re-enable debug/modes; otherwise run the script
and, only if a runner now exists, switch the button to Stop and disable
debug/modes. -/
def run_toggle (env : RunEnv) (s : ModeState) : ModeState × List Effect :=
  match s.runner with
  | some _ =>
      let r := stop_script s
      ({ r.1 with view := { r.1.view with buttonBar :=
          { r.1.view.buttonBar with
            runIcon := "run",
            runText := "Run",
            runToolTip := "Run your Python script.",
            debugEnabled := true,
            modesEnabled := true } } },
       r.2)
  | none =>
      let r := run_script env s
      match r.1.runner with
      | some _ =>
          ({ r.1 with view := { r.1.view with buttonBar :=
              { r.1.view.buttonBar with
                runIcon := "stop",
                runText := "Stop",
                runToolTip := "Stop your Python script.",
                debugEnabled := false,
                modesEnabled := false } } },
           r.2)
      | none => r

/-- Model of `PythonMode.add_repl`: disable the repl button, build a `KernelRunner`
on the workspace directory, move it to a fresh worker thread, wire the five
signal connections, and start the thread. -/
def add_repl (s : ModeState) : ModeState × List Effect :=
  ({ s with
      kernelRunner := some s.workspaceDir,
      connections :=
        [Conn.startedToOnKernelStart,
         Conn.finishedToThreadQuit,
         Conn.stopKernelToRunnerStopKernel,
         Conn.threadStartedToStartKernel,
         Conn.threadFinishedToOnKernelStop],
      threadsSpawned := s.threadsSpawned + 1,
      view := { s.view with buttonBar :=
        { s.view.buttonBar with replEnabled := false } } },
   [Effect.startThread])

/-- Model of `PythonMode.remove_repl`: remove the REPL surface, disable the repl
button, and emit `stop_kernel` without blocking. -/
def remove_repl (s : ModeState) : ModeState × List Effect :=
  ({ s with view := { s.view with
      replPane := false,
      buttonBar := { s.view.buttonBar with replEnabled := false } } },
   [Effect.viewRemoveRepl, Effect.emitStopKernel])

/-- Model of `PythonMode.toggle_repl`: start a session when `kernel_runner` is
`None`, otherwise begin shutting the session down. -/
def toggle_repl (s : ModeState) : ModeState × List Effect :=
  match s.kernelRunner with
  | none =>
      let r := add_repl s
      (r.1, Effect.logInfo "Toggle REPL on." ::
            Effect.statusMessage "Starting iPython REPL." :: r.2)
  | some _ =>
      let r := remove_repl s
      (r.1, Effect.logInfo "Toggle REPL off." ::
            Effect.statusMessage
              "Stopping iPython REPL (this may take a short amount of time)."
            :: r.2)

/-- Model of `PythonMode.on_kernel_start`: attach the jupyter REPL surface,
re-enable the repl button, show a status message. -/
def on_kernel_start (s : ModeState) : ModeState × List Effect :=
  ({ s with view := { s.view with
      replPane := true,
      buttonBar := { s.view.buttonBar with replEnabled := true } } },
   [Effect.addJupyterRepl, Effect.statusMessage "REPL started."])

/-- Model of `PythonMode.on_kernel_stop`: clear `repl_kernel_manager`, re-enable the
repl button when the slot exists, show a status message, clear
`kernel_runner`. -/
def on_kernel_stop (s : ModeState) : ModeState × List Effect :=
  let s₁ := { s with replKernelManager := none }
  let s₂ :=
    if s₁.view.buttonBar.hasRepl then
      { s₁ with view := { s₁.view with buttonBar :=
          { s₁.view.buttonBar with replEnabled := true } } }
    else s₁
  ({ s₂ with kernelRunner := none },
   [Effect.statusMessage "REPL stopped."])

/-- Observable state of the kernel session owned by a `KernelRunner`:
whether the client channels are open and whether the kernel is alive. -/
structure KernelSession where
  channelsOpen : Bool
  kernelAlive : Bool
deriving DecidableEq, Repr

/-- Model of `QtKernelClient.stop_channels`. -/
def stop_channels (ks : KernelSession) : KernelSession × List Effect :=
  ({ ks with channelsOpen := false }, [Effect.stopChannels])

/-- Model of `QtKernelManager.shutdown_kernel(now=...)`. -/
def shutdown_kernel (now : Bool) (ks : KernelSession) :
    KernelSession × List Effect :=
  ({ ks with kernelAlive := false }, [Effect.shutdownKernel now])

/-- Model of `KernelRunner.stop_kernel`: stop the client channels, shut the kernel
down immediately (`now=True`), then emit `kernel_finished`. -/
def KernelRunner.stop_kernel (ks : KernelSession) :
    KernelSession × List Effect :=
  let r₁ := stop_channels ks
  let r₂ := shutdown_kernel true r₁.1
  (r₂.1, r₁.2 ++ r₂.2 ++ [Effect.emitKernelFinished])

/-- Model of `KernelRunner.start_kernel`: log, change to the cwd of the runner, start a
kernel manager and obtain a client, then emit `kernel_started`. -/
def KernelRunner.start_kernel (cwd : String) (ks : KernelSession) :
    KernelSession × List Effect :=
  ({ ks with channelsOpen := true, kernelAlive := true },
   [Effect.logInfo "sys.path", Effect.chdir cwd,
    Effect.startKernelManager, Effect.emitKernelStarted])

/-- The REPL-session events delivered to the mode controller: a user
toggle, the start-completion notification (delivered as
`on_kernel_start`), and the finish of the worker thread (delivered as
`on_kernel_stop`). -/
inductive REvent where
  | toggle
  | kernelStarted
  | threadFinished
deriving DecidableEq, Repr

/-- Process one event through the mode controller. -/
def stepEvent (s : ModeState) : REvent → ModeState
  | REvent.toggle => (toggle_repl s).1
  | REvent.kernelStarted => (on_kernel_start s).1
  | REvent.threadFinished => (on_kernel_stop s).1

/-- Process a sequence of events, in order. -/
def runEvents : ModeState → List REvent → ModeState
  | s, [] => s
  | s, e :: es => runEvents (stepEvent s e) es

/-- The REPL state machine of the specification:
`Idle → Starting → Running → Stopping → Idle`. -/
inductive Phase where
  | idle
  | starting
  | running
  | stopping
deriving DecidableEq, Repr

/-- Valid transitions of the REPL state machine of the specification: toggles
in Idle and Running, completion notifications in Starting and Stopping. -/
def specStep : Phase → REvent → Option Phase
  | Phase.idle, REvent.toggle => some Phase.starting
  | Phase.starting, REvent.kernelStarted => some Phase.running
  | Phase.running, REvent.toggle => some Phase.stopping
  | Phase.stopping, REvent.threadFinished => some Phase.idle
  | _, _ => none

/-- Run the specification machine on a sequence of events; `none` when
some event is invalid in its state. -/
def specRun : Phase → List REvent → Option Phase
  | p, [] => some p
  | p, e :: es =>
      match specStep p e with
      | none => none
      | some q => specRun q es

/-- The initial controller state: no runner, no kernel session, all
buttons enabled, Run affordance shown, no surfaces. -/
def initState : ModeState :=
  { runner := none,
    kernelRunner := none,
    replKernelManager := none,
    connections := [],
    threadsSpawned := 0,
    workspaceDir := "/home/user/mu_code",
    view :=
      { currentTab := none,
        buttonBar :=
          { runIcon := "run",
            runText := "Run",
            runToolTip := "Run your Python script.",
            debugEnabled := true,
            modesEnabled := true,
            replEnabled := true,
            hasRepl := true },
        runnerPane := false,
        replPane := false } }

/-- A `RunEnv` whose `editor.save()` outcome is a cancelled dialog: the
tab keeps no path. -/
def envCancelled : RunEnv := { savedTab := { path := none, modified := false, text := "" } }

/-- The initial state with a given current tab. -/
def withTab (t : Tab) : ModeState :=
  { initState with view := { initState.view with currentTab := some t } }

/-- A saved, unmodified tab. -/
def tabSaved : Tab := { path := some "/tmp/a.py", modified := false, text := "print(1)" }

/-- An unsaved, modified tab. -/
def tabUnsaved : Tab := { path := none, modified := true, text := "x" }

/-- A saved tab with unsaved modifications. -/
def tabModified : Tab := { path := some "/tmp/a.py", modified := true, text := "print(2)" }

/-- A modified tab whose path is the empty string: non-`None`, but falsy
for the Python truthiness test `if tab.path:`. -/
def tabEmptyPath : Tab := { path := some "", modified := true, text := "print(2)" }

/-- A `RunEnv` whose `editor.save()` outcome is a successful save. -/
def envSaved : RunEnv := { savedTab := tabSaved }

/-- Effects that are internal bookkeeping: not a process spawn, not a
save or file write, and not a user-visible status message. -/
def silentEffect : Effect → Bool
  | Effect.spawn _ _ _ => false
  | Effect.editorSave => false
  | Effect.writeAndFlush _ _ => false
  | Effect.statusMessage _ => false
  | _ => true

/-- Helper: `stop_script` always ends with the handle cleared and the runner
surface removed, everything else untouched. -/
theorem stop_script_fst (s : ModeState) :
    (stop_script s).1 =
      { s with runner := none,
               view := { s.view with runnerPane := false } } := by
  obtain ⟨r, k, m, conns, t, w, v⟩ := s
  cases r <;> simp [stop_script]

/-- Helper: `run_script` never touches the button bar. -/
theorem run_script_buttonBar (env : RunEnv) (s : ModeState) :
    (run_script env s).1.view.buttonBar = s.view.buttonBar := by
  unfold run_script
  cases hct : s.view.currentTab with
  | none => simp [stop_script_fst]
  | some tab₀ =>
      simp only
      split
      · split
        · simp
        · split <;> simp
      · simp

/-- C1: a `toggle_repl` call made while the REPL session is in the
Starting state (kernel runner handle set, repl button disabled by
`add_repl`, REPL surface not yet attached) leaves the controller state
unchanged and in particular does not start a second worker thread: the
call takes the toggle-off branch (`kernel_runner` is not `None`) so
`add_repl` is never reached, and `remove_repl` only re-clears
already-clear fields. -/
theorem toggle_repl_in_starting_no_transition (s : ModeState) (c : String)
    (hk : s.kernelRunner = some c)
    (he : s.view.buttonBar.replEnabled = false)
    (hp : s.view.replPane = false) :
    (toggle_repl s).1 = s ∧ Effect.startThread ∉ (toggle_repl s).2 := by
  obtain ⟨r, k, m, conns, t, w, ⟨ct, ⟨ri, rt, tt, de, me, re, hr⟩, rp, pl⟩⟩ := s
  simp only at hk he hp
  subst hk he hp
  constructor
  · simp [toggle_repl, remove_repl]
  · simp [toggle_repl, remove_repl]

/-- Witness for C1 at the concrete Starting state reached by one toggle
from the initial state. -/
theorem toggle_repl_in_starting_no_transition_witness :
    (toggle_repl (toggle_repl initState).1).1 = (toggle_repl initState).1 ∧
      Effect.startThread ∉ (toggle_repl (toggle_repl initState).1).2 :=
  toggle_repl_in_starting_no_transition (toggle_repl initState).1
    initState.workspaceDir rfl rfl rfl

/-- C4: `stop_script` on a state with no process handle and no displayed
script-runner surface raises no error, leaves the state unchanged (also
when called twice in a row), and only logs and re-requests removal of the
already-absent runner surface. -/
theorem stop_script_noop_idempotent (s : ModeState)
    (hr : s.runner = none) (hp : s.view.runnerPane = false) :
    (stop_script s).1 = s ∧
      (stop_script (stop_script s).1).1 = (stop_script s).1 ∧
      (stop_script s).2 =
        [Effect.logDebug "Stopping script.", Effect.removePythonRunner] := by
  obtain ⟨r, k, m, conns, t, w, ⟨ct, bb, rp, pl⟩⟩ := s
  simp only at hr hp
  subst hr hp
  refine ⟨?_, ?_, ?_⟩ <;> simp [stop_script]

/-- Witness for C4 at the initial state. -/
theorem stop_script_noop_idempotent_witness :
    (stop_script initState).1 = initState ∧
      (stop_script (stop_script initState).1).1 = (stop_script initState).1 ∧
      (stop_script initState).2 =
        [Effect.logDebug "Stopping script.", Effect.removePythonRunner] :=
  stop_script_noop_idempotent initState rfl rfl

/-- C8: `KernelRunner.stop_kernel` performs, in order, the channel stop,
the immediate (`now=True`) kernel shutdown, and the `kernel_finished`
emission, leaving the session with channels closed and kernel dead; and
`add_repl` connects `kernel_finished` to the `quit` slot of the worker thread. -/
theorem stop_kernel_order_and_thread_quit (ks : KernelSession)
    (s : ModeState) :
    (KernelRunner.stop_kernel ks).2 =
        [Effect.stopChannels, Effect.shutdownKernel true,
         Effect.emitKernelFinished] ∧
      (KernelRunner.stop_kernel ks).1 =
        { channelsOpen := false, kernelAlive := false } ∧
      Conn.finishedToThreadQuit ∈ (add_repl s).1.connections := by
  refine ⟨rfl, rfl, ?_⟩
  simp [add_repl]

/-- C3: `run_toggle` with a script running stops it, restores the Run
icon/text/tooltip and re-enables the debug and modes buttons; with no
script running it runs the script and switches the button to Stop and
disables debug/modes only when a runner handle exists afterwards; when the
start failed (no handle) the result is exactly the `run_script` result, so
no button state changes. -/
theorem run_toggle_button_spec (env : RunEnv) (s : ModeState) :
    (∀ u, s.runner = some u →
      (run_toggle env s).1.runner = none ∧
      (run_toggle env s).1.view.buttonBar.runIcon = "run" ∧
      (run_toggle env s).1.view.buttonBar.runText = "Run" ∧
      (run_toggle env s).1.view.buttonBar.runToolTip =
        "Run your Python script." ∧
      (run_toggle env s).1.view.buttonBar.debugEnabled = true ∧
      (run_toggle env s).1.view.buttonBar.modesEnabled = true) ∧
    (s.runner = none → ∀ u, (run_script env s).1.runner = some u →
      (run_toggle env s).1.view.buttonBar.runIcon = "stop" ∧
      (run_toggle env s).1.view.buttonBar.runText = "Stop" ∧
      (run_toggle env s).1.view.buttonBar.runToolTip =
        "Stop your Python script." ∧
      (run_toggle env s).1.view.buttonBar.debugEnabled = false ∧
      (run_toggle env s).1.view.buttonBar.modesEnabled = false) ∧
    (s.runner = none → (run_script env s).1.runner = none →
      (run_toggle env s) = (run_script env s) ∧
      (run_toggle env s).1.view.buttonBar = s.view.buttonBar) := by
  refine ⟨?_, ?_, ?_⟩
  · intro u hu
    simp [run_toggle, hu, stop_script_fst]
  · intro h u h₂
    simp [run_toggle, h, h₂]
  · intro h h₂
    constructor
    · simp [run_toggle, h, h₂]
    · simp [run_toggle, h, h₂, run_script_buttonBar]

/-- Witness for C3: the stop branch at a state with a live runner, the
successful-start branch at a state with a saved unmodified tab, and the
failed-start branch at the initial state (no tab). -/
theorem run_toggle_button_spec_witness :
    ((run_toggle envCancelled { initState with runner := some () }).1.runner
        = none ∧
      (run_toggle envCancelled
        { initState with runner := some () }).1.view.buttonBar.debugEnabled
        = true) ∧
    ((run_toggle envCancelled (withTab tabSaved)).1.view.buttonBar.runIcon
        = "stop" ∧
      (run_toggle envCancelled
        (withTab tabSaved)).1.view.buttonBar.debugEnabled = false) ∧
    (run_toggle envCancelled initState).1.view.buttonBar
      = initState.view.buttonBar := by
  refine ⟨?_, ?_, ?_⟩
  · have h := (run_toggle_button_spec envCancelled
      { initState with runner := some () }).1 () rfl
    exact ⟨h.1, h.2.2.2.2.1⟩
  · have h := (run_toggle_button_spec envCancelled (withTab tabSaved)).2.1
      rfl () rfl
    exact ⟨h.1, h.2.2.2.1⟩
  · exact ((run_toggle_button_spec envCancelled initState).2.2 rfl rfl).2

/-- C6: with no current tab, `run_script` logs, performs `stop_script`,
and returns: the resulting state is the `stop_script` state (runner handle
`None`), and the effect trace holds no spawn, no save, no file write and
no user-visible status message. -/
theorem run_script_no_tab_silent (env : RunEnv) (s : ModeState)
    (h : s.view.currentTab = none) :
    (run_script env s).1 = (stop_script s).1 ∧
      (run_script env s).2 =
        Effect.logDebug "There is no active text editor." ::
          (stop_script s).2 ∧
      (run_script env s).1.runner = none ∧
      ((run_script env s).2.all silentEffect) = true := by
  obtain ⟨r, k, m, conns, t, w, ⟨ct, bb, rp, pl⟩⟩ := s
  simp only at h
  subst h
  cases r <;> simp [run_script, stop_script, silentEffect]

/-- Witness for C6 at the initial state. -/
theorem run_script_no_tab_silent_witness :
    (run_script envCancelled initState).1 = (stop_script initState).1 ∧
      (run_script envCancelled initState).2 =
        Effect.logDebug "There is no active text editor." ::
          (stop_script initState).2 ∧
      (run_script envCancelled initState).1.runner = none ∧
      ((run_script envCancelled initState).2.all silentEffect) = true :=
  run_script_no_tab_silent envCancelled initState rfl

/-- C9: when the tab path is `None` and the triggered `editor.save()`
leaves it `None` or empty (the user cancelled the dialog), `run_script`
performs the save call and nothing else: no file write, no spawn, and the
runner handle stays `None`. -/
theorem run_script_save_cancelled (env : RunEnv) (s : ModeState) (tab : Tab)
    (hct : s.view.currentTab = some tab)
    (hpath : tab.path = none)
    (hsaved : env.savedTab.path = none ∨ env.savedTab.path = some "")
    (hrun : s.runner = none) :
    (run_script env s).1.runner = none ∧
      (run_script env s).2 = [Effect.editorSave] := by
  rcases hsaved with h | h <;>
    simp [run_script, hct, hpath, h, hrun]

/-- Witness for C9: an unsaved tab whose save is cancelled. -/
theorem run_script_save_cancelled_witness :
    (run_script envCancelled (withTab tabUnsaved)).1.runner = none ∧
      (run_script envCancelled (withTab tabUnsaved)).2 =
        [Effect.editorSave] :=
  run_script_save_cancelled envCancelled (withTab tabUnsaved) tabUnsaved
    rfl rfl (Or.inl rfl) rfl

/-- C5 counterexample: a tab whose path is `some ""` has a non-`None`
path and unsaved modifications, yet `run_script` produces no effect at
all: the file is not written, the tab stays modified, and nothing is
spawned, because the code tests Python truthiness (`if tab.path:`), not
`is not None`. -/
theorem run_script_empty_path_counterexample :
    (run_script envCancelled (withTab tabEmptyPath)).2 = [] ∧
      (run_script envCancelled (withTab tabEmptyPath)).1.view.currentTab =
        some tabEmptyPath := by
  constructor <;> rfl

/-- C5 (amended): for every tab with a non-`None`, non-empty path,
`run_script` on a modified tab writes the tab text with
`write_and_flush` and marks the tab unmodified, both strictly before the
process spawn, and leaves the tab unmodified in the state; an unmodified
tab is not rewritten. -/
theorem run_script_saves_modified (env : RunEnv) (s : ModeState) (tab : Tab)
    (p : String)
    (hct : s.view.currentTab = some tab)
    (hpath : tab.path = some p)
    (hp : p ≠ "") :
    (tab.modified = true →
      (run_script env s).2 =
        [Effect.logInfo ("Saving script to: " ++ p),
         Effect.logDebug tab.text,
         Effect.writeAndFlush p tab.text,
         Effect.tabSetModified false,
         Effect.logDebug tab.text,
         Effect.spawn p s.workspaceDir true,
         Effect.waitForStarted] ∧
      (run_script env s).1.view.currentTab =
        some { tab with modified := false }) ∧
    (tab.modified = false →
      (run_script env s).2 =
        [Effect.logDebug tab.text,
         Effect.spawn p s.workspaceDir true,
         Effect.waitForStarted]) := by
  constructor
  · intro hm
    constructor <;> simp [run_script, hct, hpath, hp, hm]
  · intro hm
    simp [run_script, hct, hpath, hp, hm]

/-- Witness for C5 (amended) at a modified and at an unmodified tab. -/
theorem run_script_saves_modified_witness :
    ((run_script envCancelled (withTab tabModified)).2 =
      [Effect.logInfo "Saving script to: /tmp/a.py",
       Effect.logDebug "print(2)",
       Effect.writeAndFlush "/tmp/a.py" "print(2)",
       Effect.tabSetModified false,
       Effect.logDebug "print(2)",
       Effect.spawn "/tmp/a.py" "/home/user/mu_code" true,
       Effect.waitForStarted]) ∧
    ((run_script envCancelled (withTab tabSaved)).2 =
      [Effect.logDebug "print(1)",
       Effect.spawn "/tmp/a.py" "/home/user/mu_code" true,
       Effect.waitForStarted]) :=
  ⟨((run_script_saves_modified envCancelled (withTab tabModified)
        tabModified "/tmp/a.py" rfl rfl (by decide)).1 rfl).1,
    (run_script_saves_modified envCancelled (withTab tabSaved)
        tabSaved "/tmp/a.py" rfl rfl (by decide)).2 rfl⟩

/-- C7: for a tab with no path whose `editor.save()` leaves it saved
(some path) and unmodified, `run_script` performs exactly one save — the
editor save — and never writes the file itself before the spawn. -/
theorem run_script_single_save (env : RunEnv) (s : ModeState) (tab : Tab)
    (hct : s.view.currentTab = some tab)
    (hpath : tab.path = none)
    (hsome : env.savedTab.path.isSome = true)
    (hmod : env.savedTab.modified = false) :
    ((run_script env s).2.count Effect.editorSave) = 1 ∧
      (∀ p t, Effect.writeAndFlush p t ∉ (run_script env s).2) := by
  obtain ⟨q, hq⟩ := Option.isSome_iff_exists.mp hsome
  by_cases hqe : q = ""
  · subst hqe
    constructor
    · simp [run_script, hct, hpath, hq, List.count]
    · intro p t
      simp [run_script, hct, hpath, hq]
  · constructor
    · simp [run_script, hct, hpath, hq, hqe, hmod, List.count]
    · intro p t
      simp [run_script, hct, hpath, hq, hqe, hmod]

/-- Witness for C7: an unsaved tab saved successfully by the editor. -/
theorem run_script_single_save_witness :
    ((run_script envSaved (withTab tabUnsaved)).2.count Effect.editorSave)
        = 1 ∧
      (∀ p t, Effect.writeAndFlush p t ∉
        (run_script envSaved (withTab tabUnsaved)).2) :=
  run_script_single_save envSaved (withTab tabUnsaved) tabUnsaved
    rfl rfl rfl rfl

/-- Helper: `stop_script` neither reads nor writes the kernel-session handle. -/
theorem stop_script_kernel_frame (s : ModeState) (k : Option String) :
    stop_script { s with kernelRunner := k } =
      ({ (stop_script s).1 with kernelRunner := k }, (stop_script s).2) := by
  obtain ⟨r, k0, m, conns, t, w, v⟩ := s
  cases r <;> simp [stop_script]

/-- Helper: `run_script` neither reads nor writes the kernel-session handle. -/
theorem run_script_kernel_frame (env : RunEnv) (s : ModeState)
    (k : Option String) :
    run_script env { s with kernelRunner := k } =
      ({ (run_script env s).1 with kernelRunner := k },
       (run_script env s).2) := by
  obtain ⟨r, k0, m, conns, t, w, ⟨ct, bb, rp, pl⟩⟩ := s
  cases ct with
  | none => cases r <;> simp [run_script, stop_script]
  | some tab₀ =>
    obtain ⟨tp, tm, ttx⟩ := tab₀
    cases tp with
    | none =>
      cases hsp : env.savedTab.path with
      | none => simp [run_script, hsp]
      | some q =>
        by_cases hq : q = "" <;>
          cases hm : env.savedTab.modified <;>
            simp [run_script, hsp, hq, hm]
    | some p =>
      by_cases hp : p = "" <;>
        cases tm <;> simp [run_script, hp]

/-- Helper: `run_toggle` neither reads nor writes the kernel-session handle. -/
theorem run_toggle_kernel_frame (env : RunEnv) (s : ModeState)
    (k : Option String) :
    run_toggle env { s with kernelRunner := k } =
      ({ (run_toggle env s).1 with kernelRunner := k },
       (run_toggle env s).2) := by
  obtain ⟨r, k0, m, conns, t, w, ⟨ct, bb, rp, pl⟩⟩ := s
  cases r with
  | some u => simp [run_toggle, stop_script]
  | none =>
    have h := run_script_kernel_frame env ⟨none, k0, m, conns, t, w,
      ⟨ct, bb, rp, pl⟩⟩ k
    simp only [run_toggle, h]
    cases hr : (run_script env ⟨none, k0, m, conns, t, w,
        ⟨ct, bb, rp, pl⟩⟩).1.runner <;> simp [hr]

/-- C10 (frame property): the script-run operations commute with any
rewrite of `kernel_runner` — they neither read nor modify the
kernel-session handle — and the REPL operations leave the script-runner
handle `runner` untouched. -/
theorem script_and_repl_sessions_independent (env : RunEnv) (s : ModeState)
    (k : Option String) :
    (run_toggle env { s with kernelRunner := k } =
      ({ (run_toggle env s).1 with kernelRunner := k },
       (run_toggle env s).2)) ∧
    (run_script env { s with kernelRunner := k } =
      ({ (run_script env s).1 with kernelRunner := k },
       (run_script env s).2)) ∧
    (stop_script { s with kernelRunner := k } =
      ({ (stop_script s).1 with kernelRunner := k }, (stop_script s).2)) ∧
    (toggle_repl s).1.runner = s.runner ∧
    (add_repl s).1.runner = s.runner ∧
    (remove_repl s).1.runner = s.runner ∧
    (on_kernel_start s).1.runner = s.runner ∧
    (on_kernel_stop s).1.runner = s.runner := by
  refine ⟨run_toggle_kernel_frame env s k, run_script_kernel_frame env s k,
    stop_script_kernel_frame s k, ?_, ?_, ?_, ?_, ?_⟩
  · cases hk : s.kernelRunner <;> simp [toggle_repl, hk, add_repl, remove_repl]
  · simp [add_repl]
  · simp [remove_repl]
  · simp [on_kernel_start]
  · by_cases h : s.view.buttonBar.hasRepl <;> simp [on_kernel_stop, h]

/-- Simulation invariant tying the specification phase to the
controller state: the repl slot exists, the kernel-runner handle is set
exactly outside Idle, and the repl button is enabled exactly in Idle and
Running. -/
def phaseInv (p : Phase) (s : ModeState) : Prop :=
  s.view.buttonBar.hasRepl = true ∧
  match p with
  | Phase.idle =>
      s.kernelRunner = none ∧ s.view.buttonBar.replEnabled = true
  | Phase.starting =>
      s.kernelRunner.isSome = true ∧ s.view.buttonBar.replEnabled = false
  | Phase.running =>
      s.kernelRunner.isSome = true ∧ s.view.buttonBar.replEnabled = true
  | Phase.stopping =>
      s.kernelRunner.isSome = true ∧ s.view.buttonBar.replEnabled = false

/-- Each valid specification transition preserves the simulation
invariant through the corresponding controller operation. -/
theorem phaseInv_step (p q : Phase) (e : REvent) (s : ModeState)
    (hinv : phaseInv p s) (hstep : specStep p e = some q) :
    phaseInv q (stepEvent s e) := by
  obtain ⟨hslot, hrest⟩ := hinv
  cases p <;> cases e <;> simp only [specStep, Option.some.injEq] at hstep <;>
    try exact absurd hstep (by simp)
  all_goals subst hstep
  · obtain ⟨hk, he⟩ := hrest
    simp [stepEvent, toggle_repl, hk, add_repl, phaseInv, hslot]
  · obtain ⟨hk, he⟩ := hrest
    simp [stepEvent, on_kernel_start, phaseInv, hslot, hk]
  · obtain ⟨hk, he⟩ := hrest
    obtain ⟨c, hc⟩ := Option.isSome_iff_exists.mp hk
    simp [stepEvent, toggle_repl, hc, remove_repl, phaseInv, hslot]
  · simp [stepEvent, on_kernel_stop, hslot, phaseInv]

/-- The simulation invariant holds after any specification-valid event
sequence. -/
theorem phaseInv_runEvents (evs : List REvent) (p q : Phase) (s : ModeState)
    (hinv : phaseInv p s) (hrun : specRun p evs = some q) :
    phaseInv q (runEvents s evs) := by
  induction evs generalizing p s with
  | nil =>
      simp only [specRun, Option.some.injEq] at hrun
      subst hrun
      exact hinv
  | cons e es ih =>
      simp only [specRun] at hrun
      cases hstep : specStep p e with
      | none => rw [hstep] at hrun; exact absurd hrun (by simp)
      | some p' =>
          rw [hstep] at hrun
          exact ih p' (stepEvent s e) (phaseInv_step p p' e s hinv hstep) hrun

/-- C2: over every specification-valid sequence of non-overlapping
`toggle_repl` calls and completion notifications from the Idle initial
state, the REPL toggle button is disabled exactly in the Starting and
Stopping phases; moreover `add_repl` and `remove_repl` always disable it,
`on_kernel_start` always re-enables it, and `on_kernel_stop` re-enables it
whenever the repl slot exists. -/
theorem repl_button_disabled_iff_transitional (evs : List REvent) (p : Phase)
    (h : specRun Phase.idle evs = some p) :
    ((runEvents initState evs).view.buttonBar.replEnabled = false ↔
      (p = Phase.starting ∨ p = Phase.stopping)) ∧
    (∀ s : ModeState, (add_repl s).1.view.buttonBar.replEnabled = false) ∧
    (∀ s : ModeState, (remove_repl s).1.view.buttonBar.replEnabled = false) ∧
    (∀ s : ModeState,
      (on_kernel_start s).1.view.buttonBar.replEnabled = true) ∧
    (∀ s : ModeState, s.view.buttonBar.hasRepl = true →
      (on_kernel_stop s).1.view.buttonBar.replEnabled = true) := by
  have hinit : phaseInv Phase.idle initState := by
    refine ⟨rfl, rfl, rfl⟩
  have hinv := phaseInv_runEvents evs Phase.idle p initState hinit h
  refine ⟨?_, ?_, ?_, ?_, ?_⟩
  · obtain ⟨hslot, hrest⟩ := hinv
    cases p <;> simp_all [phaseInv]
  · intro s; simp [add_repl]
  · intro s; simp [remove_repl]
  · intro s; simp [on_kernel_start]
  · intro s hs; simp [on_kernel_stop, hs]

/-- Witness for C2: after a single toggle the machine is Starting and the
button is disabled. -/
theorem repl_button_disabled_iff_transitional_witness :
    ((runEvents initState [REvent.toggle]).view.buttonBar.replEnabled
        = false ↔
      (Phase.starting = Phase.starting ∨ Phase.starting = Phase.stopping)) :=
  (repl_button_disabled_iff_transitional [REvent.toggle] Phase.starting
    rfl).1

end Mu
